import Mathlib

/-!
Verification of the ESP8266 clock/weather firmware (`src/unnamed/part_000`,
with the earlier revision `src/hu-061.ino` for reference).

Arduino `String` values are modelled as lists of bytes (`List Nat`), since the
firmware manipulates raw UTF-8 bytes.  The float conversions (`toFloat`,
division by 3.6, multiplication by 0.75006, C `round`) are modelled with exact
rational arithmetic; on all inputs considered here the rounded integer results
coincide with the IEEE-double results computed by the firmware.
-/

namespace HU

/-- UTF-8 encoding of one character, byte by byte. -/
def utf8Char (c : Char) : List Nat :=
  let n := c.toNat
  if n < 128 then [n]
  else if n < 2048 then [192 + n / 64, 128 + n % 64]
  else if n < 65536 then [224 + n / 4096, 128 + n / 64 % 64, 128 + n % 64]
  else [240 + n / 262144, 128 + n / 4096 % 64, 128 + n / 64 % 64, 128 + n % 64]

/-- A Lean string literal as the byte list the firmware would hold. -/
def bytes (s : String) : List Nat := (s.data.map utf8Char).flatten

/-- The `isspace` predicate used by Arduino `String::trim`. -/
def isSpaceB (b : Nat) : Bool := decide (b = 32 ∨ (9 ≤ b ∧ b ≤ 13))

/-- Arduino `String::trim`: strip leading and trailing whitespace. -/
def trimBytes (l : List Nat) : List Nat :=
  ((l.dropWhile isSpaceB).reverse.dropWhile isSpaceB).reverse

/-- ASCII decimal digit test. -/
def isDigitB (b : Nat) : Bool := decide (48 ≤ b ∧ b ≤ 57)

/-- Arduino `String::indexOf(char, fromIndex)`: first occurrence at or after
`start`, `-1` when absent (or when `start` is past the end). -/
def indexOfFrom (l : List Nat) (c : Nat) (start : Nat) : Int :=
  if l.length ≤ start then -1
  else
    match (l.drop start).findIdx? (fun b => b == c) with
    | some j => ((start + j : Nat) : Int)
    | none => -1

/-- Arduino `String::indexOf(String)`: leftmost position where `pat` occurs,
`-1` when it does not (strstr semantics). -/
def indexOfStr (l pat : List Nat) : Int :=
  match (List.range (l.length + 1)).find? (fun i => pat.isPrefixOf (l.drop i)) with
  | some i => (i : Int)
  | none => -1

/-- Arduino `String::substring(left, right)`: swaps misordered bounds, clamps
`right` to the length, returns `[left, right)`. -/
def substringA (l : List Nat) (left right : Nat) : List Nat :=
  let lo := if right < left then right else left
  let hi := if right < left then left else right
  if l.length ≤ lo then []
  else (l.take (min hi l.length)).drop lo

/-- Arduino one-argument `substring(left)`. -/
def substring1 (l : List Nat) (left : Nat) : List Nat := substringA l left l.length

/-- One step of Arduino `String::replace` with a fuel counter (the fuel
`l.length` always suffices because every step consumes at least one byte). -/
def replaceFuel : Nat → List Nat → List Nat → List Nat → List Nat
  | 0, l, _, _ => l
  | _ + 1, [], _, _ => []
  | fuel + 1, a :: rest, pat, rep =>
    if !pat.isEmpty && pat.isPrefixOf (a :: rest) then
      rep ++ replaceFuel fuel (rest.drop (pat.length - 1)) pat rep
    else a :: replaceFuel fuel rest pat rep

/-- Arduino `String::replace(find, repl)`: replace all non-overlapping
occurrences left to right; an empty pattern leaves the string unchanged. -/
def replaceAll (l pat rep : List Nat) : List Nat := replaceFuel l.length l pat rep

/-- Value of a digit list read in base 10. -/
def digitsToNat (l : List Nat) : Nat := l.foldl (fun a d => a * 10 + (d - 48)) 0

/-- `atof`/`String::toFloat` on the digit-and-dot strings the parser builds:
integer part, then an optional fraction after the first dot, stopping at the
first byte that fits neither.  The value is returned as an exact fraction
`(numerator, denominator)`; this models the double result exactly enough that
every rounded integer below agrees with the firmware's. -/
def parseDec (l : List Nat) : Nat × Nat :=
  let intPart := l.takeWhile isDigitB
  let rest := l.drop intPart.length
  let fracPart := if rest.headD 0 = 46 then (rest.drop 1).takeWhile isDigitB else []
  (digitsToNat intPart * 10 ^ fracPart.length + digitsToNat fracPart, 10 ^ fracPart.length)

/-- C `round` on a non-negative fraction `num / den`: nearest integer, halves
away from zero. -/
def roundFrac (num den : Nat) : Nat := (2 * num + den) / (2 * den)

/-- Decimal digits of a natural number, as ASCII bytes (`String(int)` for the
non-negative values produced here). -/
def natToStr (n : Nat) : List Nat := (Nat.toDigits 10 n).map Char.toNat

/-- Unsigned 32-bit truncation, as on `unsigned long` (`millis()`) values. -/
def m32 (n : Nat) : Nat := n % 4294967296

/-- Unsigned 32-bit subtraction `a - b`, the arithmetic of every
`millis() - t` expression in the firmware. -/
def sub32 (a b : Nat) : Nat := (m32 a + 4294967296 - m32 b) % 4294967296

/-- Unsigned 32-bit addition. -/
def add32 (a b : Nat) : Nat := m32 (a + b)

/-- The five cleaned weather strings held in the globals `weatherTemp`,
`weatherCond`, `weatherHum`, `weatherWind`, `weatherPress`. -/
structure WeatherFields where
  weatherTemp : List Nat
  weatherCond : List Nat
  weatherHum : List Nat
  weatherWind : List Nat
  weatherPress : List Nat
deriving DecidableEq

/-- Numeric-prefix extraction for the wind field (lines 1366-1374): keep
digits and dots, stop at the first space once something was collected, skip
everything else. -/
def windNumScan : List Nat → List Nat → List Nat
  | [], acc => acc
  | c :: rest, acc =>
    if isDigitB c || c == 46 then windNumScan rest (acc ++ [c])
    else if c == 32 && !acc.isEmpty then acc
    else windNumScan rest acc

/-- Numeric-prefix extraction for the pressure field (lines 1385-1392): keep
digits and dots, stop at the first other byte once something was collected. -/
def pressNumScan : List Nat → List Nat → List Nat
  | [], acc => acc
  | c :: rest, acc =>
    if isDigitB c || c == 46 then pressNumScan rest (acc ++ [c])
    else if !acc.isEmpty then acc
    else pressNumScan rest acc

/-- `parseWeatherData` (part_000 lines 1324-1402).  Strips an HTTP header if
present, splits the body on the four pipes, cleans each field and stores it;
on an empty body or fewer than four pipes it returns leaving the previous
fields untouched.  It never touches the `weatherValid` flag. -/
def parseWeatherData (w : WeatherFields) (result0 : List Nat) : WeatherFields :=
  let bodyPos := indexOfStr result0 (bytes "\r\n\r\n")
  let result1 := if bodyPos ≠ -1 then substring1 result0 (bodyPos + 4).toNat else result0
  let result := trimBytes result1
  if result.length = 0 then w
  else
    let idx1 := indexOfFrom result 124 0
    let idx2 := indexOfFrom result 124 (idx1 + 1).toNat
    let idx3 := indexOfFrom result 124 (idx2 + 1).toNat
    let idx4 := indexOfFrom result 124 (idx3 + 1).toNat
    if idx1 < 0 ∨ idx2 < 0 ∨ idx3 < 0 ∨ idx4 < 0 then w
    else
      let tempStr0 := substringA result 0 idx1.toNat
      let condStr := substringA result (idx1 + 1).toNat idx2.toNat
      let humStr := substringA result (idx2 + 1).toNat idx3.toNat
      let windStr := substringA result (idx3 + 1).toNat idx4.toNat
      let pressStr := substring1 result (idx4 + 1).toNat
      let tempStr1 := replaceAll tempStr0 (bytes "°C") []
      let tempStr2 := replaceAll tempStr1 (bytes "°") []
      let tempStr3 := replaceAll tempStr2 (bytes "C") []
      let temp := trimBytes tempStr3
      let cond := trimBytes condStr
      let hum0 := trimBytes humStr
      let hum := if !((bytes "%").isSuffixOf hum0) then hum0 ++ bytes "%" else hum0
      let windNum := windNumScan windStr []
      let wind :=
        if windNum.length = 0 then bytes "N/A"
        else
          let f := parseDec windNum
          natToStr (roundFrac (f.1 * 10) (f.2 * 36))
      let pressNum := pressNumScan pressStr []
      let press :=
        if pressNum.length = 0 then bytes "N/A"
        else
          let f := parseDec pressNum
          natToStr (roundFrac (f.1 * 75006) (f.2 * 100000))
      { weatherTemp := temp, weatherCond := cond, weatherHum := hum,
        weatherWind := wind, weatherPress := press }

/-! ## Configuration store (`loadSettings` / `saveSettings`, part_000 lines 671-843)

The emulated EEPROM is a byte store indexed by address.  The fixed offsets are
`ADDR_SSID = 0`, `ADDR_PASS = 70`, `ADDR_CITY = 140`, `ADDR_TZ = 210`,
`ADDR_GREETING = 220`, `ADDR_FIRMWARE_URL = 430`, `ADDR_SIGNATURE = 600`,
`ADDR_ETAG = 610`, `ADDR_LUCKY_URL = 710`. -/

/-- The emulated EEPROM contents. -/
def Store : Type := Nat → Nat

/-- `EEPROM.write(a, v)`. -/
def EEPROMwrite (m : Store) (a v : Nat) : Store := fun x => if x = a then v else m x

/-- Write a run of bytes at consecutive addresses starting at `a`. -/
def writeSeq (m : Store) (a : Nat) : List Nat → Store
  | [] => m
  | b :: bs => writeSeq (EEPROMwrite m a b) (a + 1) bs

/-- The save pattern of SSID / password / city (lines 768-796): the length is
the `uint8_t` cast of the string length, then that many raw bytes follow; no
capacity check of any kind. -/
def saveStrRaw (m : Store) (addr : Nat) (s : List Nat) : Store :=
  let len := s.length % 256
  if 0 < len then writeSeq (EEPROMwrite m addr len) (addr + 1) (s.take len)
  else EEPROMwrite m addr 0

/-- The save pattern of the URL fields (lines 798-829): same as `saveStrRaw`
but the (already `uint8_t`-cast) length is clamped to `cap` first. -/
def saveStrCap (m : Store) (addr : Nat) (s : List Nat) (cap : Nat) : Store :=
  let len := min (s.length % 256) cap
  if 0 < len then writeSeq (EEPROMwrite m addr len) (addr + 1) (s.take len)
  else EEPROMwrite m addr 0

/-- C-string read-out of a byte buffer: characters up to the first NUL. -/
def cString (l : List Nat) : List Nat := l.takeWhile (fun b => b != 0)

/-- The load pattern of SSID / password / city (lines 672-707): a length byte
`len` with `0 < len < 0xFF` selects `len` raw bytes (the C code copies them
into `char buf[80]` with no bound check and writes `buf[len] = 0`; see the
claim about write bounds). -/
def loadStrRaw (m : Store) (addr : Nat) : List Nat :=
  let len := m addr
  if 0 < len ∧ len < 255 then
    cString ((List.range len).map (fun i => m (addr + 1 + i)))
  else []

/-- The load pattern of the URL / ETag fields (lines 708-756): the copy loop
is clamped at `cap` (`i < len && i < cap`); the terminating `buf[len] = 0` is
out of bounds whenever `len > cap` (see the write-bounds claim), so for those
lengths the value also depends on indeterminate stack bytes — the model
truncates at the clamp, which is exact for every `len ≤ cap`. -/
def loadStrCap (m : Store) (addr cap : Nat) : List Nat :=
  let len := m addr
  if 0 < len ∧ len < 255 then
    cString ((List.range (min len cap)).map (fun i => m (addr + 1 + i)))
  else []

/-- Reinterpret an unsigned 32-bit value as a signed `int`. -/
def toInt32 (u : Nat) : Int :=
  if u < 2147483648 then (u : Int) else (u : Int) - 4294967296

/-- The two's-complement 32-bit image of the `int` timezone offset. -/
def u32ofInt (tz : Int) : Nat := (tz % 4294967296).toNat

/-- The configuration record held in the global configuration variables. -/
structure ConfigRecord where
  wifiSSID : List Nat
  wifiPass : List Nat
  city : List Nat
  greetingUrl : List Nat
  firmwareUrl : List Nat
  luckyImageUrl : List Nat
  timezoneOffset : Int
  currentFirmwareETag : List Nat
deriving DecidableEq

/-- `saveSettings` (lines 766-843): SSID, password and city are written raw,
greeting / firmware / lucky-image URLs with length clamps 200 / 150 / 200,
then the four timezone bytes (little endian) and the `CFG1` signature.  The
ETag field is not written by this function. -/
def saveSettings (c : ConfigRecord) (m : Store) : Store :=
  let m1 := saveStrRaw m 0 c.wifiSSID
  let m2 := saveStrRaw m1 70 c.wifiPass
  let m3 := saveStrRaw m2 140 c.city
  let m4 := saveStrCap m3 220 c.greetingUrl 200
  let m5 := saveStrCap m4 430 c.firmwareUrl 150
  let m6 := saveStrCap m5 710 c.luckyImageUrl 200
  let u := u32ofInt c.timezoneOffset
  let m7 := EEPROMwrite (EEPROMwrite (EEPROMwrite (EEPROMwrite m6 210 (u % 256))
      211 (u / 256 % 256)) 212 (u / 65536 % 256)) 213 (u / 16777216 % 256)
  EEPROMwrite (EEPROMwrite (EEPROMwrite (EEPROMwrite m7 600 67) 601 70) 602 71) 603 49

/-- `loadSettings` (lines 671-764).  Note that it never inspects the signature
(the caller `setup()` does) and that the timezone bytes are decoded
unconditionally. -/
def loadSettings (m : Store) : ConfigRecord :=
  { wifiSSID := loadStrRaw m 0
  , wifiPass := loadStrRaw m 70
  , city := loadStrRaw m 140
  , greetingUrl := loadStrCap m 220 149
  , firmwareUrl := loadStrCap m 430 149
  , currentFirmwareETag := trimBytes (loadStrCap m 610 99)
  , luckyImageUrl := loadStrCap m 710 199
  , timezoneOffset :=
      toInt32 (m 210 % 256 + m 211 % 256 * 256 + m 212 % 256 * 65536 +
        m 213 % 256 * 16777216) }

/-- Freshly erased flash: every byte reads `0xFF`. -/
def erasedStore : Store := fun _ => 255

/-! Write footprints of the `loadSettings` copy loops, for the write-bounds
claim.  For a stored length byte `len` with `0 < len < 0xFF` the unclamped
pattern (SSID / password / city) writes `buf[i]` for `i < len` and then
`buf[len] = 0`; the clamped pattern writes `buf[i]` for `i < min len cap` and
then `buf[len] = 0`. -/

/-- Indices written into the 80-byte buffer by the unclamped load pattern. -/
def loadRawWriteIdxs (len : Nat) : List Nat := List.range len ++ [len]

/-- Indices written by the clamped load pattern with clamp `cap`. -/
def loadCapWriteIdxs (len cap : Nat) : List Nat := List.range (min len cap) ++ [len]

/-! ## Network task engine (part_000 lines 1258-1584)

The two cooperative state machines share the main loop; everything the
hardware and the TLS library decide (connectivity, connect success, available
bytes, stream deserialization) enters as an oracle `NetEnv` consumed by one
call of a handler. -/

/-- `enum WeatherTaskState` (lines 140-145). -/
inductive WeatherTaskState where
  | W_IDLE
  | W_CONNECTING
  | W_WAIT_HEADER
  | W_READ_BODY
deriving DecidableEq

/-- `enum ForecastTaskState` (lines 152-157). -/
inductive ForecastTaskState where
  | F_IDLE
  | F_CONNECTING
  | F_WAIT_HEADER
  | F_READ_BODY
deriving DecidableEq

export WeatherTaskState (W_IDLE W_CONNECTING W_WAIT_HEADER W_READ_BODY)
export ForecastTaskState (F_IDLE F_CONNECTING F_WAIT_HEADER F_READ_BODY)

/-- One hourly entry as seen through the ArduinoJson filter:
`time` and `weatherDesc[0].value`, either possibly null. -/
structure HourlyEntry where
  time : Option (List Nat)
  desc : Option (List Nat)
deriving DecidableEq

/-- One day of the filtered `weather` array; every field may be null. -/
structure DayForecast where
  date : Option (List Nat)
  maxtempC : Option (List Nat)
  mintempC : Option (List Nat)
  hourly : Option (List HourlyEntry)
deriving DecidableEq

/-- Oracle for one call of a task handler: the clock and everything the
network stack and the JSON deserializer return during that call. -/
structure NetEnv where
  now : Nat
  wifiConnected : Bool
  connectOk : Bool
  available : Bool
  incoming : List Nat
  connectionClosed : Bool
  headerFound : Bool
  heapOk : Bool
  jsonErrMsg : List Nat
  jsonDoc : Option (List (Option DayForecast))
deriving DecidableEq

/-- Mutable state of the main loop that the two tasks read and write. -/
structure SysState where
  weatherTaskState : WeatherTaskState
  forecastTaskState : ForecastTaskState
  weather : WeatherFields
  weatherValid : Bool
  weatherResponseBuffer : List Nat
  weatherTaskTimer : Nat
  lastWeatherFetch : Nat
  lastForecastFetch : Nat
  lastForecastError : List Nat
  forecastValid : Bool
  forecast0 : List Nat
  forecast1 : List Nat
  forecast2 : List Nat
  currentScreen : Nat
  lastScreenSwitch : Nat
deriving DecidableEq

/-- `handleWeatherTask` (lines 1258-1322).  `W_IDLE` arms only when the
forecast task is idle; a completed body (`!connected && !available`) is parsed
and — unconditionally — `weatherValid = true` is set. -/
def handleWeatherTask (e : NetEnv) (s : SysState) : SysState :=
  match s.weatherTaskState with
  | W_IDLE =>
    if (sub32 e.now s.lastWeatherFetch > 900000 ∨
        (s.currentScreen = 1 ∧ s.weatherValid = false)) ∧
        s.forecastTaskState = F_IDLE then
      { s with weatherTaskState := W_CONNECTING }
    else s
  | W_CONNECTING =>
    if e.wifiConnected then
      if e.connectOk then
        { s with weatherTaskState := W_WAIT_HEADER, weatherTaskTimer := e.now,
                 weatherResponseBuffer := [] }
      else
        { s with weatherTaskState := W_IDLE, lastWeatherFetch := sub32 e.now 840000 }
    else s
  | W_WAIT_HEADER =>
    let s1 :=
      if e.available then
        { s with weatherTaskState := W_READ_BODY, weatherTaskTimer := e.now }
      else s
    if sub32 e.now s1.weatherTaskTimer > 10000 then
      { s1 with weatherTaskState := W_IDLE }
    else s1
  | W_READ_BODY =>
    let s1 := { s with weatherResponseBuffer := s.weatherResponseBuffer ++ e.incoming }
    let s2 :=
      if e.connectionClosed then
        { s1 with weather := parseWeatherData s1.weather s1.weatherResponseBuffer,
                  weatherValid := true, lastWeatherFetch := e.now,
                  weatherTaskState := W_IDLE }
      else s1
    if sub32 e.now s2.weatherTaskTimer > 10000 then
      { s2 with weatherTaskState := W_IDLE }
    else s2

/-- The accent-substitution table of `removeAccents` (lines 1404-1419), in
source order. -/
def accentPairs : List (String × String) :=
  [("á", "a"), ("à", "a"), ("ả", "a"), ("ã", "a"), ("ạ", "a"),
   ("ă", "a"), ("ắ", "a"), ("ằ", "a"), ("ẳ", "a"), ("ẵ", "a"), ("ặ", "a"),
   ("â", "a"), ("ấ", "a"), ("ầ", "a"), ("ẩ", "a"), ("ẫ", "a"), ("ậ", "a"),
   ("đ", "d"), ("Đ", "D"),
   ("é", "e"), ("è", "e"), ("ẻ", "e"), ("ẽ", "e"), ("ẹ", "e"),
   ("ê", "e"), ("ế", "e"), ("ề", "e"), ("ể", "e"), ("ễ", "e"), ("ệ", "e"),
   ("í", "i"), ("ì", "i"), ("ỉ", "i"), ("ĩ", "i"), ("ị", "i"),
   ("ó", "o"), ("ò", "o"), ("ỏ", "o"), ("õ", "o"), ("ọ", "o"),
   ("ô", "o"), ("ố", "o"), ("ồ", "o"), ("ổ", "o"), ("ỗ", "o"), ("ộ", "o"),
   ("ơ", "o"), ("ớ", "o"), ("ờ", "o"), ("ở", "o"), ("ỡ", "o"), ("ợ", "o"),
   ("ú", "u"), ("ù", "u"), ("ủ", "u"), ("ũ", "u"), ("ụ", "u"),
   ("ư", "u"), ("ứ", "u"), ("ừ", "u"), ("ử", "u"), ("ữ", "u"), ("ự", "u"),
   ("ý", "y"), ("ỳ", "y"), ("ỷ", "y"), ("ỹ", "y"), ("ỵ", "y"),
   ("Â", "A"), ("Ă", "A"), ("Ô", "O"), ("Ơ", "O"), ("Ư", "U"), ("Ê", "E")]

/-- `removeAccents` (lines 1404-1420): the replacement chain applied in source
order, on UTF-8 bytes. -/
def removeAccents (str : List Nat) : List Nat :=
  accentPairs.foldl (fun s p => replaceAll s (bytes p.1) (bytes p.2)) str

/-- C `atoi` on the `time` strings of the hourly entries. -/
def atoiBytes (l : List Nat) : Int :=
  let l1 := l.dropWhile isSpaceB
  match l1 with
  | 45 :: rest => -((digitsToNat (rest.takeWhile isDigitB) : Nat) : Int)
  | 43 :: rest => ((digitsToNat (rest.takeWhile isDigitB) : Nat) : Int)
  | _ => ((digitsToNat (l1.takeWhile isDigitB) : Nat) : Int)

/-- The four time-of-day description slots filled by the hourly loop. -/
structure HourPick where
  morn : List Nat
  noon : List Nat
  aft : List Nat
  eve : List Nat
deriving DecidableEq

/-- The hourly loop of `parseForecastData` (lines 1546-1560): entries without
a `time` are skipped, a null description reads as empty, and the 900 / 1200 /
1500 / 2100 entries land in the four slots. -/
def hourlyPick (entries : List HourlyEntry) : HourPick :=
  entries.foldl
    (fun acc h =>
      match h.time with
      | none => acc
      | some t =>
        let ti := atoiBytes t
        let desc := h.desc.getD []
        if ti = 900 then { acc with morn := desc }
        else if ti = 1200 then { acc with noon := desc }
        else if ti = 1500 then { acc with aft := desc }
        else if ti = 2100 then { acc with eve := desc }
        else acc)
    ⟨[], [], [], []⟩

/-- The per-day text composition of `parseForecastData` (lines 1524-1571); a
null day yields the empty string. -/
def dayText (od : Option DayForecast) : List Nat :=
  match od with
  | none => []
  | some d =>
    let date := d.date.getD []
    let maxT := d.maxtempC.getD (bytes "N/A")
    let minT := d.mintempC.getD (bytes "N/A")
    let p := match d.hourly with
      | none => (⟨[], [], [], []⟩ : HourPick)
      | some hs => hourlyPick hs
    substring1 date 5 ++ bytes ": " ++ minT ++ bytes "/" ++ maxT ++ [247] ++ bytes "C" ++
      bytes ", Morn: " ++ removeAccents p.morn ++
      bytes ", Noon: " ++ removeAccents p.noon ++
      bytes ", Aft: " ++ removeAccents p.aft ++
      bytes ", Eve: " ++ removeAccents p.eve

/-- The back-dated fetch timestamp `millis() - 3600000UL + 300000UL` used for
the five-minute forecast retry. -/
def forecastRetryAt (now : Nat) : Nat := add32 (sub32 now 3600000) 300000

/-- `parseForecastData` (lines 1487-1584) with the heap allocation and the
stream deserialization provided by the oracle. -/
def parseForecastData (e : NetEnv) (s : SysState) : SysState :=
  if e.heapOk = false then
    { s with lastForecastError := bytes "Heap Fail: JD",
             lastForecastFetch := forecastRetryAt e.now }
  else
    match e.jsonDoc with
    | none =>
      { s with lastForecastError := bytes "JSON Err: " ++ e.jsonErrMsg,
               lastForecastFetch := forecastRetryAt e.now }
    | some weather =>
      if weather.length < 3 then
        { s with lastForecastError := bytes "No Weather Arr",
                 lastForecastFetch := forecastRetryAt e.now }
      else
        let t0 := dayText (weather.getD 0 none)
        let t1 := dayText (weather.getD 1 none)
        let t2 := dayText (weather.getD 2 none)
        let s1 := { s with forecast0 := t0, forecast1 := t1, forecast2 := t2 }
        if 0 < t0.length then
          { s1 with forecastValid := true, lastForecastError := bytes "Success",
                    lastForecastFetch := e.now }
        else
          { s1 with lastForecastError := bytes "Parse Fail",
                    lastForecastFetch := forecastRetryAt e.now }

/-- `handleForecastTask` (lines 1422-1485).  A deserialization failure here
means `jsonDoc = none`; note that the whole fetch-and-parse happens inside the
`F_CONNECTING` arm of a single call, and that `F_WAIT_HEADER` / `F_READ_BODY`
are dead states that merely reset to `F_IDLE`. -/
def handleForecastTask (e : NetEnv) (s : SysState) : SysState :=
  match s.forecastTaskState with
  | F_IDLE =>
    if (sub32 e.now s.lastForecastFetch > 3600000 ∨ s.forecastValid = false) ∧
        s.weatherTaskState = W_IDLE then
      { s with forecastTaskState := F_CONNECTING }
    else s
  | F_CONNECTING =>
    if e.wifiConnected = false then
      { s with lastForecastError := bytes "No WiFi",
               lastForecastFetch := forecastRetryAt e.now,
               forecastTaskState := F_IDLE }
    else if e.connectOk = false then
      { s with lastForecastError := bytes "Connect Fail",
               lastForecastFetch := forecastRetryAt e.now,
               forecastTaskState := F_IDLE }
    else
      let s1 := { s with lastForecastError := bytes "Connected..." }
      if e.headerFound = false then
        { s1 with lastForecastError := bytes "Header Fail",
                  lastForecastFetch := forecastRetryAt e.now,
                  forecastTaskState := F_IDLE }
      else
        let s2 := parseForecastData e s1
        { s2 with forecastTaskState := F_IDLE }
  | F_WAIT_HEADER => { s with forecastTaskState := F_IDLE }
  | F_READ_BODY => { s with forecastTaskState := F_IDLE }

/-- The screen-switch block of `loop()` (lines 470-491), the third place that
touches a task state: it arms the forecast task, again only when both tasks
are idle. -/
def loopScreenSwitch (e : NetEnv) (s : SysState) : SysState :=
  let interval : Nat :=
    if s.currentScreen = 2 then 45000
    else if s.currentScreen = 3 then 45000
    else if s.currentScreen = 4 then 10000
    else 15000
  if sub32 e.now s.lastScreenSwitch > interval then
    let scr := if s.currentScreen = 4 then 0 else (s.currentScreen + 1) % 4
    let s1 := { s with currentScreen := scr, lastScreenSwitch := e.now }
    if scr = 2 ∧
        (sub32 e.now s1.lastForecastFetch > 3600000 ∨ s1.forecastValid = false) ∧
        s1.forecastTaskState = F_IDLE ∧ s1.weatherTaskState = W_IDLE then
      { s1 with forecastTaskState := F_CONNECTING }
    else s1
  else s

/-- One scheduling event of the main loop, with its oracle. -/
inductive LoopStep where
  | weather (e : NetEnv)
  | forecast (e : NetEnv)
  | screen (e : NetEnv)

/-- Apply one scheduling event. -/
def applyStep (st : LoopStep) (s : SysState) : SysState :=
  match st with
  | .weather e => handleWeatherTask e s
  | .forecast e => handleForecastTask e s
  | .screen e => loopScreenSwitch e s

/-- Run a sequence of scheduling events. -/
def runSteps (l : List LoopStep) (s : SysState) : SysState :=
  l.foldl (fun s st => applyStep st s) s

/-- The state after `setup()` (lines 302-323): both tasks idle, no valid
snapshot yet. -/
def initSysState : SysState :=
  { weatherTaskState := W_IDLE, forecastTaskState := F_IDLE,
    weather := ⟨bytes "N/A", [], [], [], []⟩, weatherValid := false,
    weatherResponseBuffer := [], weatherTaskTimer := 0,
    lastWeatherFetch := 0, lastForecastFetch := 0,
    lastForecastError := bytes "Wait...", forecastValid := false,
    forecast0 := [], forecast1 := [], forecast2 := [],
    currentScreen := 0, lastScreenSwitch := 0 }

/-- The mutual-exclusion invariant: at most one task outside idle. -/
def MutexInv (s : SysState) : Prop :=
  s.weatherTaskState = W_IDLE ∨ s.forecastTaskState = F_IDLE

/-! ## Mode controller: the button-handling block of `loop()` (lines 326-401)

`systemMode` values as in the source: `0` Normal, `1` ConfigPortal,
`2` ManualUpdatePortal, `3` SleepConfirm, `4` RemoteUpdate (OTA). -/

/-- The statics and globals the button block reads and writes. -/
structure BtnState where
  btnPressStart : Nat
  btnActionTaken : Bool
  systemMode : Nat
  sleepSelectedYes : Bool
  currentScreen : Nat
  lastScreenSwitch : Nat
deriving DecidableEq

/-- The externally visible effect of one button-block execution. -/
inductive BtnAction where
  | noAction
  | drawSleepConfirm
  | enterSleep
  | startConfigPortal
  | startUpdatePortal
  | startOTA
  | reboot
  | showLuckyNumber
deriving DecidableEq

/-- The button block of `loop()` (lines 331-401), verbatim: the nested
`if`/`else` chains of the source.  `ESP.restart()` and `enterSleep()` never
return, so those branches end the call with the corresponding action. -/
def buttonStep (buttonLow : Bool) (now : Nat) (s0 : BtnState) : BtnState × BtnAction :=
  if buttonLow then
    let s := if s0.btnPressStart = 0 then
        { s0 with btnPressStart := now, btnActionTaken := false }
      else s0
    if sub32 now s.btnPressStart > 2000 ∧ s.btnActionTaken = false then
      if s.systemMode = 0 then
        ({ s with systemMode := 3, sleepSelectedYes := false, btnActionTaken := true },
         .drawSleepConfirm)
      else if s.systemMode = 3 then
        if s.sleepSelectedYes then ({ s with btnActionTaken := true }, .enterSleep)
        else ({ s with systemMode := 1, btnActionTaken := true }, .startConfigPortal)
      else if s.systemMode = 1 then
        ({ s with systemMode := 2, btnActionTaken := true }, .startUpdatePortal)
      else if s.systemMode = 2 then
        ({ s with systemMode := 4, btnActionTaken := true }, .startOTA)
      else (s, .noAction)
    else (s, .noAction)
  else
    if s0.btnPressStart ≠ 0 then
      if sub32 now s0.btnPressStart > 50 then
        if s0.btnActionTaken = false ∧ s0.systemMode = 3 then
          ({ s0 with sleepSelectedYes := !s0.sleepSelectedYes,
                     btnPressStart := 0, btnActionTaken := false }, .drawSleepConfirm)
        else if s0.btnActionTaken = false ∧ s0.systemMode = 1 then (s0, .reboot)
        else if s0.btnActionTaken = false ∧ s0.systemMode = 0 then
          ({ s0 with currentScreen := 4, lastScreenSwitch := now,
                     btnPressStart := 0, btnActionTaken := false }, .showLuckyNumber)
        else if s0.btnActionTaken = false ∧ s0.systemMode = 2 then (s0, .reboot)
        else ({ s0 with btnPressStart := 0, btnActionTaken := false }, .noAction)
      else ({ s0 with btnPressStart := 0, btnActionTaken := false }, .noAction)
    else (s0, .noAction)

/-- Modelled from the spec's transition table, with the claim's release rule
"a press of at least 50 ms": the table of hold actions and release actions of
the claim, used to compare the claim's wording against `buttonStep`. -/
def specButtonStepClaim (buttonLow : Bool) (now : Nat) (s0 : BtnState) : BtnState × BtnAction :=
  if buttonLow then
    let s := if s0.btnPressStart = 0 then
        { s0 with btnPressStart := now, btnActionTaken := false }
      else s0
    if sub32 now s.btnPressStart > 2000 ∧ s.btnActionTaken = false then
      match s.systemMode with
      | 0 => ({ s with systemMode := 3, sleepSelectedYes := false, btnActionTaken := true },
              .drawSleepConfirm)
      | 3 =>
        if s.sleepSelectedYes then ({ s with btnActionTaken := true }, .enterSleep)
        else ({ s with systemMode := 1, btnActionTaken := true }, .startConfigPortal)
      | 1 => ({ s with systemMode := 2, btnActionTaken := true }, .startUpdatePortal)
      | 2 => ({ s with systemMode := 4, btnActionTaken := true }, .startOTA)
      | _ => (s, .noAction)
    else (s, .noAction)
  else
    if s0.btnPressStart ≠ 0 then
      if 50 ≤ sub32 now s0.btnPressStart then
        if s0.btnActionTaken then ({ s0 with btnPressStart := 0, btnActionTaken := false }, .noAction)
        else
          match s0.systemMode with
          | 3 => ({ s0 with sleepSelectedYes := !s0.sleepSelectedYes,
                            btnPressStart := 0, btnActionTaken := false }, .drawSleepConfirm)
          | 1 => (s0, .reboot)
          | 0 => ({ s0 with currentScreen := 4, lastScreenSwitch := now,
                            btnPressStart := 0, btnActionTaken := false }, .showLuckyNumber)
          | 2 => (s0, .reboot)
          | _ => ({ s0 with btnPressStart := 0, btnActionTaken := false }, .noAction)
      else ({ s0 with btnPressStart := 0, btnActionTaken := false }, .noAction)
    else (s0, .noAction)

/-- Modelled from the spec's transition table with the release boundary
amended to "a press longer than 50 ms" (the only change the code forces). -/
def specButtonStepAmended (buttonLow : Bool) (now : Nat) (s0 : BtnState) : BtnState × BtnAction :=
  if buttonLow then
    let s := if s0.btnPressStart = 0 then
        { s0 with btnPressStart := now, btnActionTaken := false }
      else s0
    if sub32 now s.btnPressStart > 2000 ∧ s.btnActionTaken = false then
      match s.systemMode with
      | 0 => ({ s with systemMode := 3, sleepSelectedYes := false, btnActionTaken := true },
              .drawSleepConfirm)
      | 3 =>
        if s.sleepSelectedYes then ({ s with btnActionTaken := true }, .enterSleep)
        else ({ s with systemMode := 1, btnActionTaken := true }, .startConfigPortal)
      | 1 => ({ s with systemMode := 2, btnActionTaken := true }, .startUpdatePortal)
      | 2 => ({ s with systemMode := 4, btnActionTaken := true }, .startOTA)
      | _ => (s, .noAction)
    else (s, .noAction)
  else
    if s0.btnPressStart ≠ 0 then
      if 50 < sub32 now s0.btnPressStart then
        if s0.btnActionTaken then ({ s0 with btnPressStart := 0, btnActionTaken := false }, .noAction)
        else
          match s0.systemMode with
          | 3 => ({ s0 with sleepSelectedYes := !s0.sleepSelectedYes,
                            btnPressStart := 0, btnActionTaken := false }, .drawSleepConfirm)
          | 1 => (s0, .reboot)
          | 0 => ({ s0 with currentScreen := 4, lastScreenSwitch := now,
                            btnPressStart := 0, btnActionTaken := false }, .showLuckyNumber)
          | 2 => (s0, .reboot)
          | _ => ({ s0 with btnPressStart := 0, btnActionTaken := false }, .noAction)
      else ({ s0 with btnPressStart := 0, btnActionTaken := false }, .noAction)
    else (s0, .noAction)

/-! ## Firmware update engine (part_000 lines 1721-1996) -/

/-- `checkForFirmwareUpdate` (lines 1721-1767): given the connectivity and
HTTP outcome, the stored ETag, the remote ETag and the current pending-update
flag, returns the new `(currentFirmwareETag, pendingOTA_ETag)` pair.  The
stored identifier is never written here; a non-empty remote tag that is
missing locally or differs schedules the update. -/
def checkForFirmwareUpdate (wifiOk : Bool) (firmwareUrl : List Nat) (httpOk : Bool)
    (newETag : List Nat) (currentETag pendingETag : List Nat) : List Nat × List Nat :=
  if wifiOk = false ∨ firmwareUrl = [] then (currentETag, pendingETag)
  else if httpOk = false then (currentETag, pendingETag)
  else if newETag ≠ [] ∧ (currentETag = [] ∨ currentETag ≠ newETag) then
    (currentETag, newETag)
  else (currentETag, pendingETag)

/-- One iteration's worth of stream activity in the OTA download loop. -/
inductive OTAEvent where
  | chunk (data : List Nat) (writeOk : Bool)
  | quiet (elapsed : Nat)
deriving DecidableEq

/-- Result of the download loop of `startOTAUpdate` (lines 1910-1954). -/
structure OTADownload where
  received : Nat
  writeError : Bool
  timedOut : Bool
deriving DecidableEq

/-- The download loop (lines 1910-1954): available bytes are written in
bounded chunks; a failed `Update.write` breaks out; more than 10 s with no
new data reboots; the loop also breaks once `received` reaches a declared
positive content length.  The event list ending models the peer closing the
connection. -/
def otaLoop : List OTAEvent → Nat → Nat → Nat → Int → OTADownload
  | [], _, _, received, _ => ⟨received, false, false⟩
  | OTAEvent.chunk data ok :: rest, now, _, received, cl =>
    if ok = false then ⟨received, true, false⟩
    else
      let r := received + data.length
      if 0 < cl ∧ cl ≤ (r : Int) then ⟨r, false, false⟩
      else otaLoop rest now now r cl
  | OTAEvent.quiet d :: rest, now, lastData, received, cl =>
    let now2 := now + d
    if 10000 < now2 - lastData then ⟨received, false, true⟩
    else otaLoop rest now2 lastData received cl

/-- Final outcome of one `startOTAUpdate` run: what was persisted, whether the
run reboots through the success path, and the byte count. -/
structure OTAOutcome where
  persistedETag : Option (List Nat)
  success : Bool
  received : Nat
deriving DecidableEq

/-- `startOTAUpdate` (lines 1769-1996), from the oracle outcomes of its
phases: WiFi reconnection (bounded 15 s), configured URL, transport
allocation, the three GET attempts, the download loop, and `Update.end`
(which cannot succeed after a failed `Update.write`).  Every path ends in
`ESP.restart()`; only the success path first persists the target ETag
(clamped to 90 bytes, lines 1971-1980), and only when it is non-empty. -/
def startOTAUpdate (wifiOk : Bool) (firmwareUrl : List Nat) (heapOk httpOk : Bool)
    (contentLength : Int) (events : List OTAEvent) (updateEndOk : Bool)
    (targetETag : List Nat) : OTAOutcome :=
  if wifiOk = false then ⟨none, false, 0⟩
  else if firmwareUrl = [] then ⟨none, false, 0⟩
  else if heapOk = false then ⟨none, false, 0⟩
  else if httpOk = false then ⟨none, false, 0⟩
  else
    let d := otaLoop events 0 0 0 contentLength
    if d.timedOut then ⟨none, false, d.received⟩
    else if 0 < contentLength ∧ (d.received : Int) ≠ contentLength then
      ⟨none, false, d.received⟩
    else if updateEndOk ∧ d.writeError = false then
      if targetETag ≠ [] then ⟨some (targetETag.take 90), true, d.received⟩
      else ⟨none, true, d.received⟩
    else ⟨none, false, d.received⟩

/-! ## Concrete scenarios used by the theorems -/

/-- A `W_READ_BODY` state holding a previously valid snapshot and a freshly
received response whose condition field is empty. -/
def emptyCondState : SysState :=
  { initSysState with
    weatherTaskState := W_READ_BODY,
    weather := ⟨bytes "+20", bytes "Sunny", bytes "50%", bytes "2", bytes "760"⟩,
    weatherValid := false,
    weatherResponseBuffer := bytes "HTTP/1.0 200 OK\r\n\r\n+21||56|11 km/h|1015 hPa",
    weatherTaskTimer := 5000 }

/-- The oracle for the completing tick: the peer has closed the connection. -/
def closeEnv : NetEnv :=
  { now := 6000, wifiConnected := true, connectOk := true, available := false,
    incoming := [], connectionClosed := true, headerFound := true, heapOk := true,
    jsonErrMsg := [], jsonDoc := none }

/-- An oracle that lets an idle task arm itself (stale timestamps). -/
def armEnv : NetEnv :=
  { now := 1000000, wifiConnected := true, connectOk := true, available := true,
    incoming := [], connectionClosed := false, headerFound := true, heapOk := true,
    jsonErrMsg := [], jsonDoc := none }

/-- Three plain forecast days as the filtered deserializer would deliver them. -/
def demoDay : Option DayForecast :=
  some { date := some (bytes "2026-01-01"), maxtempC := some (bytes "9"),
         mintempC := some (bytes "4"),
         hourly := some [{ time := some (bytes "1200"), desc := some (bytes "Sunny") }] }

/-- A successful forecast fetch: connection, headers and deserialization all
succeed within the same call. -/
def forecastOkEnv : NetEnv :=
  { now := 4000000, wifiConnected := true, connectOk := true, available := false,
    incoming := [], connectionClosed := false, headerFound := true, heapOk := true,
    jsonErrMsg := [], jsonDoc := some [demoDay, demoDay, demoDay] }

/-- An ordinary in-capacity configuration, used to witness the save/load
roundtrip. -/
def roundtripDemoConfig : ConfigRecord :=
  { wifiSSID := bytes "home-net", wifiPass := bytes "pw12", city := bytes "Hanoi",
    greetingUrl := bytes "https://g.example/greet.txt",
    firmwareUrl := bytes "https://f.example/fw.bin",
    luckyImageUrl := bytes "https://l.example/lucky.bin",
    timezoneOffset := 25200, currentFirmwareETag := [] }

/-- A configuration whose SSID is one byte longer than its 70-byte region
allows (length byte plus 69 content bytes). -/
def overlongSsidConfig : ConfigRecord :=
  { wifiSSID := List.replicate 70 97, wifiPass := [98], city := [99],
    greetingUrl := [], firmwareUrl := [], luckyImageUrl := [],
    timezoneOffset := 25200, currentFirmwareETag := [] }

/-- A `SleepConfirm` state with the button held since t = 1000 ms. -/
def sleepConfirmHeld : BtnState :=
  { btnPressStart := 1000, btnActionTaken := false, systemMode := 3,
    sleepSelectedYes := false, currentScreen := 0, lastScreenSwitch := 0 }

/-- The state-transition shape of one `handleWeatherTask` call: each state can
only stay, advance one edge, or abort to idle. -/
def weatherSuccessors : WeatherTaskState → List WeatherTaskState
  | W_IDLE => [W_IDLE, W_CONNECTING]
  | W_CONNECTING => [W_CONNECTING, W_WAIT_HEADER, W_IDLE]
  | W_WAIT_HEADER => [W_WAIT_HEADER, W_READ_BODY, W_IDLE]
  | W_READ_BODY => [W_READ_BODY, W_IDLE]

/-! ## Claim theorems -/

/-- Claim C8: parsing the pipe-delimited weather body
`+21|Partly cloudy|56|11 km/h|1015 hPa` yields temperature `+21`, condition
`Partly cloudy`, humidity `56%`, wind `3` (11 km/h divided by 3.6, rounded)
and pressure `761` (1015 hPa times 0.75006, rounded). -/
theorem parseWeatherData_pipe_example :
    parseWeatherData ⟨bytes "N/A", [], [], [], []⟩
        (bytes "+21|Partly cloudy|56|11 km/h|1015 hPa") =
      ⟨bytes "+21", bytes "Partly cloudy", bytes "56%", bytes "3", bytes "761"⟩ := by
  decide

/-- Claim C1 (the code contradicts it): after a completed fetch whose body has
an empty condition field, `handleWeatherTask` still sets `weatherValid = true`
(line 1312 runs unconditionally) and the stored condition has been overwritten
with the empty string rather than retained. -/
theorem weatherValid_true_despite_empty_condition :
    (handleWeatherTask closeEnv emptyCondState).weatherValid = true ∧
      (handleWeatherTask closeEnv emptyCondState).weather.weatherCond = [] ∧
      emptyCondState.weather.weatherCond = bytes "Sunny" := by
  decide

/-- Claim C6 as stated is false: on fully erased storage (every byte `0xFF`)
the decoded timezone offset is `-1`, not `0` (the four `0xFF` bytes are read
unconditionally as a two's-complement `int`). -/
theorem loadSettings_erased_timezone_not_zero :
    (loadSettings erasedStore).timezoneOffset = -1 ∧
      (loadSettings erasedStore).timezoneOffset ≠ 0 := by
  decide

/-- Claim C6 amended: loading fully erased storage yields empty strings for
every string field and a timezone offset of `-1`. -/
theorem loadSettings_erased_fields :
    loadSettings erasedStore =
      { wifiSSID := [], wifiPass := [], city := [], greetingUrl := [],
        firmwareUrl := [], luckyImageUrl := [], timezoneOffset := -1,
        currentFirmwareETag := [] } := by
  decide

/-- Claim C10 (the code contradicts it): a stored SSID length byte of `100`
satisfies `0 < len < 0xFF`, yet the load loop writes `buf[80] … buf[99]` and
the terminator writes `buf[100]`, all outside the 80-byte SSID buffer. -/
theorem loadSettings_ssid_write_out_of_bounds :
    0 < (100 : Nat) ∧ (100 : Nat) < 255 ∧
      (80 : Nat) ∈ loadRawWriteIdxs 100 ∧ (100 : Nat) ∈ loadRawWriteIdxs 100 ∧
      ¬ ((80 : Nat) < 80) ∧ ¬ ((100 : Nat) < 80) := by
  decide

/-- Claim C4 as stated is false: with no stored identifier and a non-empty
remote tag, `checkForFirmwareUpdate` schedules the update
(`pendingOTA_ETag := newETag`, lines 1749-1761) and stores nothing. -/
theorem checkForFirmwareUpdate_first_run_schedules :
    checkForFirmwareUpdate true (bytes "http://x/fw.bin") true (bytes "etag-1") [] [] =
        ([], bytes "etag-1") ∧
      bytes "etag-1" ≠ [] := by
  decide

/-- Claim C7 as stated is false at the 50 ms boundary: a release after a press
of exactly 50 ms is ignored by the code (`> 50`), while the claim's table
("at least 50 ms") toggles the SleepConfirm selection. -/
theorem buttonStep_release_at_50ms_differs_from_claim :
    (buttonStep false 1050 sleepConfirmHeld).1.sleepSelectedYes = false ∧
      (specButtonStepClaim false 1050 sleepConfirmHeld).1.sleepSelectedYes = true ∧
      buttonStep false 1050 sleepConfirmHeld ≠
        specButtonStepClaim false 1050 sleepConfirmHeld := by
  decide

/-- Claim C5 as stated is false: saving a 70-byte SSID is not truncated to the
field's capacity — its last byte spills into the password region, is then
overwritten by the password length byte, and loading returns 69 `a`s followed
by a `0x01` byte, which is not a prefix (hence not a truncation) of the
original SSID. -/
theorem saveSettings_overlong_ssid_not_truncated :
    (loadSettings (saveSettings overlongSsidConfig erasedStore)).wifiSSID =
        List.replicate 69 97 ++ [1] ∧
      List.isPrefixOf
        ((loadSettings (saveSettings overlongSsidConfig erasedStore)).wifiSSID)
        overlongSsidConfig.wifiSSID = false ∧
      overlongSsidConfig.wifiSSID = List.replicate 70 97 := by
  decide

/-- A weather task handler call never touches the forecast task state. -/
theorem weather_keeps_forecastTaskState (e : NetEnv) (s : SysState) :
    (handleWeatherTask e s).forecastTaskState = s.forecastTaskState := by
  unfold handleWeatherTask
  cases h : s.weatherTaskState <;> dsimp only <;> split_ifs <;> rfl

/-- The forecast parser only touches the snapshot fields, not the task states. -/
theorem parseForecastData_keeps_tasks (e : NetEnv) (s : SysState) :
    (parseForecastData e s).weatherTaskState = s.weatherTaskState ∧
      (parseForecastData e s).forecastTaskState = s.forecastTaskState := by
  unfold parseForecastData
  rcases h : e.jsonDoc with _ | w <;> simp only [h] <;> split_ifs <;>
    exact ⟨rfl, rfl⟩

/-- A forecast task handler call never touches the weather task state. -/
theorem forecast_keeps_weatherTaskState (e : NetEnv) (s : SysState) :
    (handleForecastTask e s).weatherTaskState = s.weatherTaskState := by
  unfold handleForecastTask
  cases h : s.forecastTaskState <;> dsimp only <;> split_ifs <;>
    first
      | rfl
      | exact (parseForecastData_keeps_tasks e _).1

/-- From any non-idle state the forecast handler returns to idle in one call. -/
theorem forecast_nonidle_entry (e : NetEnv) (s : SysState)
    (hf : s.forecastTaskState ≠ F_IDLE) :
    (handleForecastTask e s).forecastTaskState = F_IDLE := by
  unfold handleForecastTask
  cases h : s.forecastTaskState <;> dsimp only <;> split_ifs <;>
    first
      | rfl
      | exact absurd h hf

/-- From `F_CONNECTING`, one forecast handler call always ends in `F_IDLE`:
the whole fetch (or its failure) happens inside that call. -/
theorem forecast_connecting_one_call (e : NetEnv) (s : SysState)
    (hf : s.forecastTaskState = F_CONNECTING) :
    (handleForecastTask e s).forecastTaskState = F_IDLE := by
  unfold handleForecastTask
  simp only [hf]
  split_ifs <;> rfl

/-- The weather task leaves idle only when the forecast task is idle. -/
theorem weather_leave_idle (e : NetEnv) (s : SysState)
    (hw : s.weatherTaskState = W_IDLE)
    (hne : (handleWeatherTask e s).weatherTaskState ≠ W_IDLE) :
    s.forecastTaskState = F_IDLE := by
  unfold handleWeatherTask at hne
  simp only [hw] at hne
  split_ifs at hne with hc
  · exact hc.2
  · exact absurd hw hne

/-- The forecast task leaves idle only when the weather task is idle. -/
theorem forecast_leave_idle (e : NetEnv) (s : SysState)
    (hf : s.forecastTaskState = F_IDLE)
    (hne : (handleForecastTask e s).forecastTaskState ≠ F_IDLE) :
    s.weatherTaskState = W_IDLE := by
  unfold handleForecastTask at hne
  simp only [hf] at hne
  split_ifs at hne with hc
  · exact hc.2
  · exact absurd hf hne

/-- The screen-switch block never touches the weather task state. -/
theorem screen_keeps_weatherTaskState (e : NetEnv) (s : SysState) :
    (loopScreenSwitch e s).weatherTaskState = s.weatherTaskState := by
  unfold loopScreenSwitch
  dsimp only
  split_ifs <;> rfl

/-- The screen-switch trigger arms the forecast task only when the weather
task is idle. -/
theorem screen_leave_idle (e : NetEnv) (s : SysState)
    (hf : s.forecastTaskState = F_IDLE)
    (hne : (loopScreenSwitch e s).forecastTaskState ≠ F_IDLE) :
    s.weatherTaskState = W_IDLE := by
  unfold loopScreenSwitch at hne
  dsimp only at hne
  split_ifs at hne
  all_goals first
    | exact absurd hf hne
    | tauto

/-- Every scheduling event of the main loop preserves mutual exclusion. -/
theorem mutex_preserved (st : LoopStep) (s : SysState) (h : MutexInv s) :
    MutexInv (applyStep st s) := by
  cases st with
  | weather e =>
    simp only [applyStep]
    by_cases hne : (handleWeatherTask e s).weatherTaskState = W_IDLE
    · exact Or.inl hne
    · refine Or.inr ?_
      rw [weather_keeps_forecastTaskState]
      rcases h with hw | hf
      · exact weather_leave_idle e s hw hne
      · exact hf
  | forecast e =>
    simp only [applyStep]
    by_cases hne : (handleForecastTask e s).forecastTaskState = F_IDLE
    · exact Or.inr hne
    · refine Or.inl ?_
      rw [forecast_keeps_weatherTaskState]
      rcases hf : s.forecastTaskState with _ | _ | _ | _
      · exact forecast_leave_idle e s hf hne
      all_goals exact absurd (forecast_nonidle_entry e s (by rw [hf]; decide)) hne
  | screen e =>
    simp only [applyStep]
    by_cases hne : (loopScreenSwitch e s).forecastTaskState = F_IDLE
    · exact Or.inr hne
    · refine Or.inl ?_
      rw [screen_keeps_weatherTaskState]
      rcases h with hw | hf
      · exact hw
      · exact screen_leave_idle e s hf hne

/-- Mutual exclusion is maintained along any run. -/
theorem mutex_runSteps (steps : List LoopStep) (s : SysState) (h : MutexInv s) :
    MutexInv (runSteps steps s) := by
  induction steps generalizing s with
  | nil => exact h
  | cons st rest ih => exact ih (applyStep st s) (mutex_preserved st s h)

/-- Claim C2: along every schedule from the boot state at most one of the two
task state machines is outside idle, and each of the three places that move a
task out of idle (the weather tick, the forecast tick, the screen-switch
trigger) does so only while the other task is idle. -/
theorem network_tasks_mutual_exclusion :
    ∀ steps : List LoopStep,
      MutexInv (runSteps steps initSysState) ∧
        (∀ (s : SysState) (e : NetEnv), s.weatherTaskState = W_IDLE →
          (handleWeatherTask e s).weatherTaskState ≠ W_IDLE →
          s.forecastTaskState = F_IDLE) ∧
        (∀ (s : SysState) (e : NetEnv), s.forecastTaskState = F_IDLE →
          (handleForecastTask e s).forecastTaskState ≠ F_IDLE →
          s.weatherTaskState = W_IDLE) ∧
        (∀ (s : SysState) (e : NetEnv), s.forecastTaskState = F_IDLE →
          (loopScreenSwitch e s).forecastTaskState ≠ F_IDLE →
          s.weatherTaskState = W_IDLE) := by
  intro steps
  exact ⟨mutex_runSteps steps initSysState (Or.inl rfl),
    fun s e hw hne => weather_leave_idle e s hw hne,
    fun s e hf hne => forecast_leave_idle e s hf hne,
    fun s e hf hne => screen_leave_idle e s hf hne⟩

/-- Witness for the mutual-exclusion theorem: a concrete schedule, and the
weather task observed leaving idle only against an idle forecast task. -/
theorem network_tasks_mutual_exclusion_witness :
    MutexInv (runSteps [LoopStep.weather armEnv] initSysState) ∧
      initSysState.forecastTaskState = F_IDLE := by
  have h := network_tasks_mutual_exclusion [LoopStep.weather armEnv]
  exact ⟨h.1, h.2.1 initSysState armEnv (by decide) (by decide)⟩

set_option maxRecDepth 8000 in
/-- Claim C9 as stated is false for the forecast task: from a freshly armed
`F_CONNECTING` state (reached from the boot state by one idle tick), a single
`handleForecastTask` call performs the whole connect-fetch-parse cycle — it
ends back in `F_IDLE` with the parsed snapshot already marked valid, instead
of streaming the body over later calls. -/
theorem forecast_single_call_completes_cycle :
    (runSteps [LoopStep.forecast armEnv] initSysState).forecastTaskState = F_CONNECTING ∧
      (runSteps [LoopStep.forecast armEnv] initSysState).forecastValid = false ∧
      (handleForecastTask forecastOkEnv
          (runSteps [LoopStep.forecast armEnv] initSysState)).forecastTaskState = F_IDLE ∧
      (handleForecastTask forecastOkEnv
          (runSteps [LoopStep.forecast armEnv] initSysState)).forecastValid = true := by
  decide

/-- Claim C9 amended: every `handleWeatherTask` call performs at most one
transition of the four-state shape, but a `handleForecastTask` call from
`F_CONNECTING` returns directly to `F_IDLE`, having done the entire fetch and
parse (or failed) within that single call. -/
theorem task_step_granularity :
    (∀ (e : NetEnv) (s : SysState),
        (handleWeatherTask e s).weatherTaskState ∈ weatherSuccessors s.weatherTaskState) ∧
      (∀ (e : NetEnv) (s : SysState), s.forecastTaskState = F_CONNECTING →
        (handleForecastTask e s).forecastTaskState = F_IDLE) := by
  constructor
  · intro e s
    unfold handleWeatherTask
    cases h : s.weatherTaskState <;> dsimp only [weatherSuccessors] <;> split_ifs <;> simp [h]
  · exact fun e s h => forecast_connecting_one_call e s h

/-- Witness for the granularity theorem at concrete inputs. -/
theorem task_step_granularity_witness :
    (handleWeatherTask armEnv initSysState).weatherTaskState ∈
        weatherSuccessors initSysState.weatherTaskState ∧
      (handleForecastTask forecastOkEnv
          { initSysState with forecastTaskState := F_CONNECTING }).forecastTaskState =
        F_IDLE := by
  exact ⟨task_step_granularity.1 armEnv initSysState,
    task_step_granularity.2 forecastOkEnv
      { initSysState with forecastTaskState := F_CONNECTING } (by decide)⟩


/-- Claim C3: an `startOTAUpdate` run that persists the update identifier or
reboots through the success path received exactly the declared content length
(when one was declared); every failure path (WiFi, URL, allocation, HTTP,
timeout, write error, byte-count mismatch, failed finalize) reboots without
persisting. -/
theorem ota_commit_requires_exact_length (wifiOk : Bool) (firmwareUrl : List Nat)
    (heapOk httpOk : Bool) (contentLength : Int) (events : List OTAEvent)
    (updateEndOk : Bool) (targetETag : List Nat)
    (hcl : 0 < contentLength)
    (hcommit :
      (startOTAUpdate wifiOk firmwareUrl heapOk httpOk contentLength events
          updateEndOk targetETag).persistedETag ≠ none ∨
        (startOTAUpdate wifiOk firmwareUrl heapOk httpOk contentLength events
          updateEndOk targetETag).success = true) :
    ((startOTAUpdate wifiOk firmwareUrl heapOk httpOk contentLength events
        updateEndOk targetETag).received : Int) = contentLength := by
  unfold startOTAUpdate at hcommit ⊢
  dsimp only at hcommit ⊢
  split_ifs at hcommit ⊢
  all_goals try dsimp only at hcommit ⊢
  all_goals first
    | omega
    | (rcases hcommit with hc | hc <;> simp at hc)

/-- Witness for the OTA commit-integrity theorem: a complete 4-byte download
against a declared length of 4 commits. -/
theorem ota_commit_requires_exact_length_witness :
    (0 : Int) < 4 ∧
      ((startOTAUpdate true [102] true true 4 [OTAEvent.chunk [9, 9, 9, 9] true]
          true [101]).received : Int) = 4 :=
  ⟨by decide,
    ota_commit_requires_exact_length true [102] true true 4
      [OTAEvent.chunk [9, 9, 9, 9] true] true [101] (by decide) (Or.inr (by decide))⟩

/-- Claim C4 amended: `checkForFirmwareUpdate` never writes the stored
identifier, and whenever the request succeeds with a non-empty remote tag that
differs from the stored one — including when nothing is stored yet — it
schedules a pending update. -/
theorem checkForFirmwareUpdate_never_stores_only_schedules
    (wifiOk : Bool) (firmwareUrl : List Nat) (httpOk : Bool)
    (newETag currentETag pendingETag : List Nat) :
    (checkForFirmwareUpdate wifiOk firmwareUrl httpOk newETag currentETag
        pendingETag).1 = currentETag ∧
      (wifiOk = true → firmwareUrl ≠ [] → httpOk = true → newETag ≠ [] →
        currentETag ≠ newETag →
        (checkForFirmwareUpdate wifiOk firmwareUrl httpOk newETag currentETag
          pendingETag).2 = newETag) := by
  constructor
  · unfold checkForFirmwareUpdate
    split_ifs <;> rfl
  · intro hw hu hh hn hd
    unfold checkForFirmwareUpdate
    split_ifs with h1 h2 h3
    · exact absurd h1 (by simp [hw, hu])
    · exact absurd h2 (by simp [hh])
    · rfl
    · exact absurd ⟨hn, Or.inr hd⟩ h3

/-- Witness: first run (nothing stored), remote tag `e` — the check leaves the
stored identifier empty and schedules the update. -/
theorem checkForFirmwareUpdate_never_stores_only_schedules_witness :
    (checkForFirmwareUpdate true [104] true [101] [] []).1 = [] ∧
      (checkForFirmwareUpdate true [104] true [101] [] []).2 = [101] := by
  have h := checkForFirmwareUpdate_never_stores_only_schedules true [104] true [101] [] []
  exact ⟨h.1, h.2 rfl (by decide) rfl (by decide) (by decide)⟩

/-- Claim C7 amended: the button block equals the specified transition table
for every input — hold over 2000 ms with no action yet taken steps
Normal → SleepConfirm (selection No), SleepConfirm → sleep if Yes else
ConfigPortal, ConfigPortal → ManualUpdatePortal,
ManualUpdatePortal → RemoteUpdate; a release after a press of more than 50 ms
(not "at least") toggles the selection in SleepConfirm, reboots from
ConfigPortal or ManualUpdatePortal, and requests the lucky-number screen in
Normal; a press of 50 ms or less is ignored as noise.  Determinism is
immediate since the step is a function. -/
theorem buttonStep_matches_spec_table :
    ∀ (buttonLow : Bool) (now : Nat) (s : BtnState),
      buttonStep buttonLow now s = specButtonStepAmended buttonLow now s := by
  intro b now s
  obtain ⟨ps, act, m, yes, cs, ls⟩ := s
  rcases eq_or_ne ps 0 with hp | hp
  · subst hp
    cases b
    · simp [buttonStep, specButtonStepAmended]
    · by_cases h2 : 2000 < sub32 now now <;>
        rcases m with _ | _ | _ | _ | m <;> cases yes <;>
        simp [buttonStep, specButtonStepAmended, h2]
  · cases b
    · by_cases h50 : 50 < sub32 now ps <;> cases act <;>
        rcases m with _ | _ | _ | _ | m <;>
        simp [buttonStep, specButtonStepAmended, hp, h50]
    · by_cases h2 : 2000 < sub32 now ps <;> cases act <;>
        rcases m with _ | _ | _ | _ | m <;> cases yes <;>
        simp [buttonStep, specButtonStepAmended, hp, h2]

theorem EEPROMwrite_ne (m : Store) (a v x : Nat) (h : x ≠ a) :
    EEPROMwrite m a v x = m x := by
  simp [EEPROMwrite, h]

theorem EEPROMwrite_eq (m : Store) (a v : Nat) : EEPROMwrite m a v a = v := by
  simp [EEPROMwrite]

theorem writeSeq_lt (l : List Nat) (m : Store) (a x : Nat) (h : x < a) :
    writeSeq m a l x = m x := by
  induction l generalizing m a with
  | nil => rfl
  | cons b bs ih =>
    simp only [writeSeq]
    rw [ih _ (a + 1) (by omega), EEPROMwrite_ne _ _ _ _ (by omega)]

theorem writeSeq_get (l : List Nat) (m : Store) (a i : Nat) (h : i < l.length) :
    writeSeq m a l (a + i) = l.getD i 0 := by
  induction l generalizing m a i with
  | nil => simp at h
  | cons b bs ih =>
    cases i with
    | zero =>
      simp only [writeSeq, Nat.add_zero]
      rw [writeSeq_lt _ _ _ _ (by omega), EEPROMwrite_eq]
      rfl
    | succ j =>
      simp only [writeSeq]
      have : a + (j + 1) = (a + 1) + j := by omega
      rw [this, ih _ (a + 1) j (by simpa using h)]
      rfl

theorem saveStrRaw_lt (m : Store) (addr : Nat) (s : List Nat) (x : Nat) (h : x < addr) :
    saveStrRaw m addr s x = m x := by
  unfold saveStrRaw
  split_ifs
  · rw [writeSeq_lt _ _ _ _ (by omega), EEPROMwrite_ne _ _ _ _ (by omega)]
  · rw [EEPROMwrite_ne _ _ _ _ (by omega)]

theorem saveStrCap_lt (m : Store) (addr : Nat) (s : List Nat) (cap x : Nat) (h : x < addr) :
    saveStrCap m addr s cap x = m x := by
  unfold saveStrCap
  split_ifs
  · rw [writeSeq_lt _ _ _ _ (by omega), EEPROMwrite_ne _ _ _ _ (by omega)]
  · rw [EEPROMwrite_ne _ _ _ _ (by omega)]

theorem cString_of_no_zero (s : List Nat) (hz : 0 ∉ s) : cString s = s := by
  induction s with
  | nil => rfl
  | cons b bs ih =>
    simp only [List.mem_cons, not_or] at hz
    simp only [cString, List.takeWhile]
    have hb : (b != 0) = true := by
      simpa using fun hb0 => hz.1 hb0.symm
    rw [hb]
    simpa [cString] using ih hz.2

theorem range_map_getD (s : List Nat) :
    (List.range s.length).map (fun i => s.getD i 0) = s := by
  apply List.ext_getElem
  · simp
  · intro i h1 h2
    simp only [List.getElem_map, List.getElem_range]
    rw [List.getD_eq_getElem s 0 h2]

theorem loadStrRaw_congr (m m2 : Store) (addr : Nat)
    (h : ∀ x, addr ≤ x → x ≤ addr + m addr → m2 x = m x) :
    loadStrRaw m2 addr = loadStrRaw m addr := by
  have h0 : m2 addr = m addr := h addr le_rfl (Nat.le_add_right _ _)
  unfold loadStrRaw
  dsimp only
  rw [h0]
  split_ifs with hc
  · congr 1
    apply List.map_congr_left
    intro i hi
    simp only [List.mem_range] at hi
    exact h (addr + 1 + i) (by omega) (by omega)
  · rfl

theorem loadStrCap_congr (m m2 : Store) (addr cap : Nat)
    (h : ∀ x, addr ≤ x → x ≤ addr + m addr → m2 x = m x) :
    loadStrCap m2 addr cap = loadStrCap m addr cap := by
  have h0 : m2 addr = m addr := h addr le_rfl (Nat.le_add_right _ _)
  unfold loadStrCap
  dsimp only
  rw [h0]
  split_ifs with hc
  · congr 1
    apply List.map_congr_left
    intro i hi
    simp only [List.mem_range] at hi
    have hle : i < m addr := lt_of_lt_of_le hi (Nat.min_le_left _ _)
    exact h (addr + 1 + i) (by omega) (by omega)
  · rfl

theorem loadStrRaw_saveStrRaw (m : Store) (addr : Nat) (s : List Nat)
    (hlen : s.length ≤ 254) (hz : 0 ∉ s) :
    loadStrRaw (saveStrRaw m addr s) addr = s := by
  rcases Nat.eq_zero_or_pos s.length with h0 | h0
  · have hs : s = [] := List.length_eq_zero.mp h0
    subst hs
    simp [loadStrRaw, saveStrRaw, EEPROMwrite]
  · have hmod : s.length % 256 = s.length := Nat.mod_eq_of_lt (by omega)
    have hstore : saveStrRaw m addr s =
        writeSeq (EEPROMwrite m addr s.length) (addr + 1) s := by
      simp only [saveStrRaw, hmod, if_pos h0, List.take_length]
    have hlenb : writeSeq (EEPROMwrite m addr s.length) (addr + 1) s addr = s.length := by
      rw [writeSeq_lt _ _ _ _ (by omega), EEPROMwrite_eq]
    unfold loadStrRaw
    simp only [hstore, hlenb]
    rw [if_pos (show 0 < s.length ∧ s.length < 255 by omega)]
    have hread : ∀ i ∈ List.range s.length,
        writeSeq (EEPROMwrite m addr s.length) (addr + 1) s (addr + 1 + i) = s.getD i 0 := by
      intro i hi
      simp only [List.mem_range] at hi
      have harr : addr + 1 + i = (addr + 1) + i := by omega
      rw [harr, writeSeq_get _ _ _ _ hi]
    rw [List.map_congr_left hread, range_map_getD, cString_of_no_zero s hz]

theorem loadStrCap_saveStrCap (m : Store) (addr : Nat) (s : List Nat) (scap lcap : Nat)
    (hlen : s.length ≤ lcap) (hcap : lcap ≤ scap) (hl254 : lcap ≤ 254) (hz : 0 ∉ s) :
    loadStrCap (saveStrCap m addr s scap) addr lcap = s := by
  rcases Nat.eq_zero_or_pos s.length with h0 | h0
  · have hs : s = [] := List.length_eq_zero.mp h0
    subst hs
    simp [loadStrCap, saveStrCap, EEPROMwrite]
  · have hmod : s.length % 256 = s.length := Nat.mod_eq_of_lt (by omega)
    have hmins : min (s.length % 256) scap = s.length := by
      rw [hmod]; omega
    have hstore : saveStrCap m addr s scap =
        writeSeq (EEPROMwrite m addr s.length) (addr + 1) s := by
      simp only [saveStrCap, hmins, if_pos h0]
      rw [List.take_of_length_le (by omega)]
    have hlenb : writeSeq (EEPROMwrite m addr s.length) (addr + 1) s addr = s.length := by
      rw [writeSeq_lt _ _ _ _ (by omega), EEPROMwrite_eq]
    unfold loadStrCap
    simp only [hstore, hlenb]
    rw [if_pos (show 0 < s.length ∧ s.length < 255 by omega)]
    have hminl : min s.length lcap = s.length := by omega
    rw [hminl]
    have hread : ∀ i ∈ List.range s.length,
        writeSeq (EEPROMwrite m addr s.length) (addr + 1) s (addr + 1 + i) = s.getD i 0 := by
      intro i hi
      simp only [List.mem_range] at hi
      have harr : addr + 1 + i = (addr + 1) + i := by omega
      rw [harr, writeSeq_get _ _ _ _ hi]
    rw [List.map_congr_left hread, range_map_getD, cString_of_no_zero s hz]

theorem saveStrRaw_len (m : Store) (addr : Nat) (s : List Nat) :
    saveStrRaw m addr s addr = s.length % 256 := by
  unfold saveStrRaw
  split_ifs with h
  · rw [writeSeq_lt _ _ _ _ (by omega), EEPROMwrite_eq]
  · rw [EEPROMwrite_eq]; omega

theorem saveStrCap_len (m : Store) (addr : Nat) (s : List Nat) (cap : Nat) :
    saveStrCap m addr s cap addr = min (s.length % 256) cap := by
  unfold saveStrCap
  split_ifs with h
  · rw [writeSeq_lt _ _ _ _ (by omega), EEPROMwrite_eq]
  · rw [EEPROMwrite_eq]; omega

/-- Claim C5 amended: `save` then `load` restores every string field exactly —
not truncated — provided each field fits its region (at most 69 bytes for
SSID, password and city, 149 for the greeting and firmware URLs, 199 for the
lucky-image URL, none containing a NUL byte), and restores the 32-bit timezone
offset exactly.  Over-length fields are not truncated to a capacity; they
corrupt neighbouring regions (see the counterexample). -/
theorem saveSettings_loadSettings_roundtrip (c : ConfigRecord) (m : Store)
    (h1 : c.wifiSSID.length ≤ 69) (h2 : c.wifiPass.length ≤ 69)
    (h3 : c.city.length ≤ 69) (h4 : c.greetingUrl.length ≤ 149)
    (h5 : c.firmwareUrl.length ≤ 149) (h6 : c.luckyImageUrl.length ≤ 199)
    (hz1 : 0 ∉ c.wifiSSID) (hz2 : 0 ∉ c.wifiPass) (hz3 : 0 ∉ c.city)
    (hz4 : 0 ∉ c.greetingUrl) (hz5 : 0 ∉ c.firmwareUrl) (hz6 : 0 ∉ c.luckyImageUrl)
    (htzlo : -2147483648 ≤ c.timezoneOffset) (htzhi : c.timezoneOffset < 2147483648) :
    (loadSettings (saveSettings c m)).wifiSSID = c.wifiSSID ∧
      (loadSettings (saveSettings c m)).wifiPass = c.wifiPass ∧
      (loadSettings (saveSettings c m)).city = c.city ∧
      (loadSettings (saveSettings c m)).greetingUrl = c.greetingUrl ∧
      (loadSettings (saveSettings c m)).firmwareUrl = c.firmwareUrl ∧
      (loadSettings (saveSettings c m)).luckyImageUrl = c.luckyImageUrl ∧
      (loadSettings (saveSettings c m)).timezoneOffset = c.timezoneOffset := by
  have hm1 := Nat.mod_le c.wifiSSID.length 256
  have hm2 := Nat.mod_le c.wifiPass.length 256
  have hm3 := Nat.mod_le c.city.length 256
  have hm4 := Nat.mod_le c.greetingUrl.length 256
  have hm5 := Nat.mod_le c.firmwareUrl.length 256
  have hm6 := Nat.mod_le c.luckyImageUrl.length 256
  refine ⟨?_, ?_, ?_, ?_, ?_, ?_, ?_⟩
  · show loadStrRaw (saveSettings c m) 0 = c.wifiSSID
    have hagree : ∀ x, 0 ≤ x → x ≤ 0 + (saveStrRaw m 0 c.wifiSSID) 0 →
        saveSettings c m x = saveStrRaw m 0 c.wifiSSID x := by
      intro x hx1 hx2
      rw [saveStrRaw_len] at hx2
      unfold saveSettings
      rw [EEPROMwrite_ne _ _ _ _ (by omega), EEPROMwrite_ne _ _ _ _ (by omega),
        EEPROMwrite_ne _ _ _ _ (by omega), EEPROMwrite_ne _ _ _ _ (by omega),
        EEPROMwrite_ne _ _ _ _ (by omega), EEPROMwrite_ne _ _ _ _ (by omega),
        EEPROMwrite_ne _ _ _ _ (by omega), EEPROMwrite_ne _ _ _ _ (by omega),
        saveStrCap_lt _ _ _ _ _ (by omega), saveStrCap_lt _ _ _ _ _ (by omega),
        saveStrCap_lt _ _ _ _ _ (by omega), saveStrRaw_lt _ _ _ _ (by omega),
        saveStrRaw_lt _ _ _ _ (by omega)]
    rw [loadStrRaw_congr _ _ 0 hagree]
    exact loadStrRaw_saveStrRaw m 0 c.wifiSSID (by omega) hz1
  · show loadStrRaw (saveSettings c m) 70 = c.wifiPass
    have hagree : ∀ x, 70 ≤ x →
        x ≤ 70 + (saveStrRaw (saveStrRaw m 0 c.wifiSSID) 70 c.wifiPass) 70 →
        saveSettings c m x = saveStrRaw (saveStrRaw m 0 c.wifiSSID) 70 c.wifiPass x := by
      intro x hx1 hx2
      rw [saveStrRaw_len] at hx2
      unfold saveSettings
      rw [EEPROMwrite_ne _ _ _ _ (by omega), EEPROMwrite_ne _ _ _ _ (by omega),
        EEPROMwrite_ne _ _ _ _ (by omega), EEPROMwrite_ne _ _ _ _ (by omega),
        EEPROMwrite_ne _ _ _ _ (by omega), EEPROMwrite_ne _ _ _ _ (by omega),
        EEPROMwrite_ne _ _ _ _ (by omega), EEPROMwrite_ne _ _ _ _ (by omega),
        saveStrCap_lt _ _ _ _ _ (by omega), saveStrCap_lt _ _ _ _ _ (by omega),
        saveStrCap_lt _ _ _ _ _ (by omega), saveStrRaw_lt _ _ _ _ (by omega)]
    rw [loadStrRaw_congr _ _ 70 hagree]
    exact loadStrRaw_saveStrRaw _ 70 c.wifiPass (by omega) hz2
  · show loadStrRaw (saveSettings c m) 140 = c.city
    have hagree : ∀ x, 140 ≤ x →
        x ≤ 140 + (saveStrRaw (saveStrRaw (saveStrRaw m 0 c.wifiSSID) 70 c.wifiPass)
          140 c.city) 140 →
        saveSettings c m x =
          saveStrRaw (saveStrRaw (saveStrRaw m 0 c.wifiSSID) 70 c.wifiPass) 140 c.city x := by
      intro x hx1 hx2
      rw [saveStrRaw_len] at hx2
      unfold saveSettings
      rw [EEPROMwrite_ne _ _ _ _ (by omega), EEPROMwrite_ne _ _ _ _ (by omega),
        EEPROMwrite_ne _ _ _ _ (by omega), EEPROMwrite_ne _ _ _ _ (by omega),
        EEPROMwrite_ne _ _ _ _ (by omega), EEPROMwrite_ne _ _ _ _ (by omega),
        EEPROMwrite_ne _ _ _ _ (by omega), EEPROMwrite_ne _ _ _ _ (by omega),
        saveStrCap_lt _ _ _ _ _ (by omega), saveStrCap_lt _ _ _ _ _ (by omega),
        saveStrCap_lt _ _ _ _ _ (by omega)]
    rw [loadStrRaw_congr _ _ 140 hagree]
    exact loadStrRaw_saveStrRaw _ 140 c.city (by omega) hz3
  · show loadStrCap (saveSettings c m) 220 149 = c.greetingUrl
    have hagree : ∀ x, 220 ≤ x →
        x ≤ 220 + (saveStrCap (saveStrRaw (saveStrRaw (saveStrRaw m 0 c.wifiSSID)
          70 c.wifiPass) 140 c.city) 220 c.greetingUrl 200) 220 →
        saveSettings c m x =
          saveStrCap (saveStrRaw (saveStrRaw (saveStrRaw m 0 c.wifiSSID) 70 c.wifiPass)
            140 c.city) 220 c.greetingUrl 200 x := by
      intro x hx1 hx2
      rw [saveStrCap_len] at hx2
      have hb : min (c.greetingUrl.length % 256) 200 ≤ 149 := by omega
      unfold saveSettings
      rw [EEPROMwrite_ne _ _ _ _ (by omega), EEPROMwrite_ne _ _ _ _ (by omega),
        EEPROMwrite_ne _ _ _ _ (by omega), EEPROMwrite_ne _ _ _ _ (by omega),
        EEPROMwrite_ne _ _ _ _ (by omega), EEPROMwrite_ne _ _ _ _ (by omega),
        EEPROMwrite_ne _ _ _ _ (by omega), EEPROMwrite_ne _ _ _ _ (by omega),
        saveStrCap_lt _ _ _ _ _ (by omega), saveStrCap_lt _ _ _ _ _ (by omega)]
    rw [loadStrCap_congr _ _ 220 149 hagree]
    exact loadStrCap_saveStrCap _ 220 c.greetingUrl 200 149 (by omega) (by omega)
      (by omega) hz4
  · show loadStrCap (saveSettings c m) 430 149 = c.firmwareUrl
    have hagree : ∀ x, 430 ≤ x →
        x ≤ 430 + (saveStrCap (saveStrCap (saveStrRaw (saveStrRaw (saveStrRaw m 0
          c.wifiSSID) 70 c.wifiPass) 140 c.city) 220 c.greetingUrl 200)
          430 c.firmwareUrl 150) 430 →
        saveSettings c m x =
          saveStrCap (saveStrCap (saveStrRaw (saveStrRaw (saveStrRaw m 0 c.wifiSSID)
            70 c.wifiPass) 140 c.city) 220 c.greetingUrl 200) 430 c.firmwareUrl 150 x := by
      intro x hx1 hx2
      rw [saveStrCap_len] at hx2
      have hb : min (c.firmwareUrl.length % 256) 150 ≤ 149 := by omega
      unfold saveSettings
      rw [EEPROMwrite_ne _ _ _ _ (by omega), EEPROMwrite_ne _ _ _ _ (by omega),
        EEPROMwrite_ne _ _ _ _ (by omega), EEPROMwrite_ne _ _ _ _ (by omega),
        EEPROMwrite_ne _ _ _ _ (by omega), EEPROMwrite_ne _ _ _ _ (by omega),
        EEPROMwrite_ne _ _ _ _ (by omega), EEPROMwrite_ne _ _ _ _ (by omega),
        saveStrCap_lt _ _ _ _ _ (by omega)]
    rw [loadStrCap_congr _ _ 430 149 hagree]
    exact loadStrCap_saveStrCap _ 430 c.firmwareUrl 150 149 (by omega) (by omega)
      (by omega) hz5
  · show loadStrCap (saveSettings c m) 710 199 = c.luckyImageUrl
    have hagree : ∀ x, 710 ≤ x →
        x ≤ 710 + (saveStrCap (saveStrCap (saveStrCap (saveStrRaw (saveStrRaw
          (saveStrRaw m 0 c.wifiSSID) 70 c.wifiPass) 140 c.city) 220 c.greetingUrl 200)
          430 c.firmwareUrl 150) 710 c.luckyImageUrl 200) 710 →
        saveSettings c m x =
          saveStrCap (saveStrCap (saveStrCap (saveStrRaw (saveStrRaw (saveStrRaw m 0
            c.wifiSSID) 70 c.wifiPass) 140 c.city) 220 c.greetingUrl 200)
            430 c.firmwareUrl 150) 710 c.luckyImageUrl 200 x := by
      intro x hx1 hx2
      rw [saveStrCap_len] at hx2
      unfold saveSettings
      rw [EEPROMwrite_ne _ _ _ _ (by omega), EEPROMwrite_ne _ _ _ _ (by omega),
        EEPROMwrite_ne _ _ _ _ (by omega), EEPROMwrite_ne _ _ _ _ (by omega),
        EEPROMwrite_ne _ _ _ _ (by omega), EEPROMwrite_ne _ _ _ _ (by omega),
        EEPROMwrite_ne _ _ _ _ (by omega), EEPROMwrite_ne _ _ _ _ (by omega)]
    rw [loadStrCap_congr _ _ 710 199 hagree]
    exact loadStrCap_saveStrCap _ 710 c.luckyImageUrl 200 199 (by omega) (by omega)
      (by omega) hz6
  · show toInt32 (saveSettings c m 210 % 256 + saveSettings c m 211 % 256 * 256 +
        saveSettings c m 212 % 256 * 65536 + saveSettings c m 213 % 256 * 16777216) =
      c.timezoneOffset
    have e0 : saveSettings c m 210 = u32ofInt c.timezoneOffset % 256 := by
      unfold saveSettings
      rw [EEPROMwrite_ne _ _ _ _ (by omega), EEPROMwrite_ne _ _ _ _ (by omega),
        EEPROMwrite_ne _ _ _ _ (by omega), EEPROMwrite_ne _ _ _ _ (by omega),
        EEPROMwrite_ne _ _ _ _ (by omega), EEPROMwrite_ne _ _ _ _ (by omega),
        EEPROMwrite_ne _ _ _ _ (by omega), EEPROMwrite_eq]
    have e1 : saveSettings c m 211 = u32ofInt c.timezoneOffset / 256 % 256 := by
      unfold saveSettings
      rw [EEPROMwrite_ne _ _ _ _ (by omega), EEPROMwrite_ne _ _ _ _ (by omega),
        EEPROMwrite_ne _ _ _ _ (by omega), EEPROMwrite_ne _ _ _ _ (by omega),
        EEPROMwrite_ne _ _ _ _ (by omega), EEPROMwrite_ne _ _ _ _ (by omega),
        EEPROMwrite_eq]
    have e2 : saveSettings c m 212 = u32ofInt c.timezoneOffset / 65536 % 256 := by
      unfold saveSettings
      rw [EEPROMwrite_ne _ _ _ _ (by omega), EEPROMwrite_ne _ _ _ _ (by omega),
        EEPROMwrite_ne _ _ _ _ (by omega), EEPROMwrite_ne _ _ _ _ (by omega),
        EEPROMwrite_ne _ _ _ _ (by omega), EEPROMwrite_eq]
    have e3 : saveSettings c m 213 = u32ofInt c.timezoneOffset / 16777216 % 256 := by
      unfold saveSettings
      rw [EEPROMwrite_ne _ _ _ _ (by omega), EEPROMwrite_ne _ _ _ _ (by omega),
        EEPROMwrite_ne _ _ _ _ (by omega), EEPROMwrite_ne _ _ _ _ (by omega),
        EEPROMwrite_eq]
    rw [e0, e1, e2, e3]
    unfold toInt32 u32ofInt
    split_ifs <;> omega


/-- Witness for the roundtrip theorem on a concrete configuration. -/
theorem saveSettings_loadSettings_roundtrip_witness :
    (loadSettings (saveSettings roundtripDemoConfig erasedStore)).wifiSSID =
        roundtripDemoConfig.wifiSSID ∧
      (loadSettings (saveSettings roundtripDemoConfig erasedStore)).wifiPass =
        roundtripDemoConfig.wifiPass ∧
      (loadSettings (saveSettings roundtripDemoConfig erasedStore)).city =
        roundtripDemoConfig.city ∧
      (loadSettings (saveSettings roundtripDemoConfig erasedStore)).greetingUrl =
        roundtripDemoConfig.greetingUrl ∧
      (loadSettings (saveSettings roundtripDemoConfig erasedStore)).firmwareUrl =
        roundtripDemoConfig.firmwareUrl ∧
      (loadSettings (saveSettings roundtripDemoConfig erasedStore)).luckyImageUrl =
        roundtripDemoConfig.luckyImageUrl ∧
      (loadSettings (saveSettings roundtripDemoConfig erasedStore)).timezoneOffset =
        roundtripDemoConfig.timezoneOffset :=
  saveSettings_loadSettings_roundtrip roundtripDemoConfig erasedStore
    (by decide) (by decide) (by decide) (by decide) (by decide) (by decide)
    (by decide) (by decide) (by decide) (by decide) (by decide) (by decide)
    (by decide) (by decide)

end HU
